import Mathlib

/-!
Shallow embedding of the discord-mcp-server repository (src/main.py and
src/http_mcp_server.py): JSON-like values with Python truthiness, the
DiscordMCP facade methods with their exception handling, the HTTP and
WebSocket transport handlers, and the MCP tool and resource wrappers.
Each definition is translated from the corresponding source function;
external discord-library behaviour is abstracted into a DiscordEnv record
of outcome functions, and the library calls a method performs are
collected in a trace list so that invocation counts and argument values
(for example the limit passed to channel.history) can be stated.
-/

/-- JSON-like values as the Python handlers see them. -/
inductive PyVal where
  | pyNone
  | pyBool (b : Bool)
  | pyInt (n : Int)
  | pyStr (s : String)
  | pyList (xs : List PyVal)
  | pyDict (fields : List (String × PyVal))

/-- Python truthiness, as used by the required-parameter checks
(if not channel_id ...): None, 0, empty string, empty list and empty
dict are falsy, everything else is truthy. -/
def truthy : PyVal → Bool
  | .pyNone => false
  | .pyBool b => b
  | .pyInt n => n != 0
  | .pyStr s => s != ""
  | .pyList xs => !xs.isEmpty
  | .pyDict fs => !fs.isEmpty

/-- A decoded JSON request body: a finite mapping from keys to values. -/
abbrev Req := List (String × PyVal)

/-- Python data.get(key): the stored value, or None when the key is absent. -/
def getParam : Req → String → PyVal
  | [], _ => PyVal.pyNone
  | (k, v) :: rest, key => if k == key then v else getParam rest key

/-- Python data.get(key, default). -/
def getParamD : Req → String → PyVal → PyVal
  | [], _, d => d
  | (k, v) :: rest, key, d => if k == key then v else getParamD rest key d

/-- Whether the key is present in the request body at all. -/
def hasParam : Req → String → Bool
  | [], _ => false
  | (k, _) :: rest, key => k == key || hasParam rest key

/-- Python int(v): succeeds on ints and bools and on integer-shaped
strings, raises ValueError or TypeError (modelled as an error message)
otherwise. -/
def pyToInt : PyVal → Except String Int
  | .pyBool b => .ok (if b then 1 else 0)
  | .pyInt n => .ok n
  | .pyStr s =>
    match s.toInt? with
    | some n => .ok n
    | none => .error ("invalid literal for int() with base 10: " ++ s)
  | .pyNone => .error "int() argument must be a number or a string, not NoneType"
  | .pyList _ => .error "int() argument must be a number or a string, not list"
  | .pyDict _ => .error "int() argument must be a number or a string, not dict"

/-- Exceptions the discord library can raise into the facade methods:
discord.NotFound, discord.Forbidden, and any other Exception; each
carries its str() rendering. -/
inductive DiscordExn where
  | notFound (msg : String)
  | forbidden (msg : String)
  | other (msg : String)

/-- Python str(e) for a caught exception. -/
def exnStr : DiscordExn → String
  | .notFound m => m
  | .forbidden m => m
  | .other m => m

/-- Record for one message returned by channel.history. -/
structure MsgRecord where
  id : Int
  author : String
  content : String
  timestamp : String
  reactions : List String

/-- Record for a user object. -/
structure UserRecord where
  id : Int
  name : String
  discriminator : String
  bot : Bool
  created_at : Option String

/-- Record for a guild object. -/
structure GuildRecord where
  id : Int
  name : String
  member_count : Int
  owner_id : Int
  created_at : Option String

/-- Record for a created text channel. -/
structure ChannelRecord where
  id : Int
  name : String
  topic : Option String
  category_id : Option Int

/-- Record for a channel listed by guild.channels. -/
structure ChanInfo where
  id : Int
  name : String
  type : String
  category_id : Option Int

/-- One call into the discord library made by a facade method. -/
inductive LibCall where
  | getChannel (cid : Int)
  | send (cid : Int) (content : PyVal)
  | history (cid : Int) (limit : Int)
  | getUser (uid : Int)
  | fetchUser (uid : Int)
  | getGuild (sid : Int)
  | createChannel (sid : Int) (name : PyVal) (categoryId : Option Int)
  | deleteChannel (cid : Int)
  | fetchMessage (cid : Int) (mid : Int)
  | addReaction (cid : Int) (mid : Int) (emoji : PyVal)
  | removeReaction (cid : Int) (mid : Int) (emoji : PyVal)

/-- Behaviour of the external discord library, one outcome function per
operation the facade methods use. Cache reads (get_channel, get_user,
get_guild, guilds) are pure lookups; network operations may raise. -/
structure DiscordEnv where
  hasChannel : Int → Bool
  send : Int → PyVal → Except DiscordExn Int
  history : Int → Int → Except DiscordExn (List MsgRecord)
  getUser : Int → Option UserRecord
  fetchUser : Int → Except DiscordExn (Option UserRecord)
  guilds : List GuildRecord
  hasGuild : Int → Bool
  guildChannels : Int → List ChanInfo
  createChannel : Int → PyVal → Option Int → Except DiscordExn ChannelRecord
  deleteCh : Int → Except DiscordExn Unit
  fetchMessage : Int → Int → Except DiscordExn Unit
  addReaction : Int → Int → PyVal → Except DiscordExn Unit
  removeReaction : Int → Int → PyVal → Except DiscordExn Unit

/-- Dict of the form with a single error key, as the facade methods
return on failure. -/
def errDict (m : String) : PyVal := .pyDict [("error", .pyStr m)]

/-- Dict of the form with status error and a message, as send_message
returns on failure. -/
def statusErrDict (m : String) : PyVal :=
  .pyDict [("status", .pyStr "error"), ("message", .pyStr m)]

/-- Optional string rendered as in the source (isoformat() if present
else None). -/
def optStr : Option String → PyVal
  | some s => .pyStr s
  | none => .pyNone

/-- Optional integer rendered as a JSON value or None. -/
def optInt : Option Int → PyVal
  | some n => .pyInt n
  | none => .pyNone

/-- The per-message dict built by the read-message loops. -/
def msgDict (m : MsgRecord) : PyVal :=
  .pyDict [("id", .pyInt m.id), ("author", .pyStr m.author),
    ("content", .pyStr m.content), ("timestamp", .pyStr m.timestamp),
    ("reactions", .pyList (m.reactions.map PyVal.pyStr))]

/-- The user-info dict built by get_user_info. -/
def userDict (u : UserRecord) : PyVal :=
  .pyDict [("id", .pyInt u.id), ("name", .pyStr u.name),
    ("discriminator", .pyStr u.discriminator), ("bot", .pyBool u.bot),
    ("created_at", optStr u.created_at)]

/-- The per-guild dict built by list_servers. -/
def guildDict (g : GuildRecord) : PyVal :=
  .pyDict [("id", .pyInt g.id), ("name", .pyStr g.name),
    ("member_count", .pyInt g.member_count), ("owner_id", .pyInt g.owner_id),
    ("created_at", optStr g.created_at)]

/-- The per-channel dict built by list_channels. -/
def chanDict (c : ChanInfo) : PyVal :=
  .pyDict [("id", .pyInt c.id), ("name", .pyStr c.name),
    ("type", .pyStr c.type), ("category_id", optInt c.category_id)]

/-- The created-channel dict built by create_text_channel. -/
def createdChanDict (c : ChannelRecord) : PyVal :=
  .pyDict [("id", .pyInt c.id), ("name", .pyStr c.name),
    ("topic", optStr c.topic), ("category_id", optInt c.category_id)]

/-- A Python try block: the body either returns normally or raises; any
raised exception is given to the combined except clauses, which in this
codebase always end with a bare except Exception and hence return a
value for every exception. -/
def pyTry (body : Except DiscordExn PyVal × List LibCall)
    (handle : DiscordExn → PyVal) : Except DiscordExn PyVal × List LibCall :=
  match body with
  | (Except.ok v, t) => (Except.ok v, t)
  | (Except.error e, t) => (Except.ok (handle e), t)

/-- Except clauses of DiscordMCP.send_message: Forbidden first, then a
bare Exception clause. -/
def send_message_handle : DiscordExn → PyVal
  | .forbidden _ => statusErrDict "Permission denied"
  | e => statusErrDict (exnStr e)

/-- Except clauses of DiscordMCP.read_messages: Forbidden, then Exception. -/
def read_messages_handle : DiscordExn → PyVal
  | .forbidden _ => errDict "Permission denied"
  | e => errDict (exnStr e)

/-- Except clause of DiscordMCP.get_user_info: bare Exception only. -/
def get_user_info_handle : DiscordExn → PyVal
  | e => errDict (exnStr e)

/-- Except clause of DiscordMCP.list_servers: bare Exception only. -/
def list_servers_handle : DiscordExn → PyVal
  | e => errDict (exnStr e)

/-- Except clauses of DiscordMCP.create_text_channel: Forbidden, then
Exception. -/
def create_text_channel_handle : DiscordExn → PyVal
  | .forbidden _ => errDict "Permission denied"
  | e => errDict (exnStr e)

/-- Except clauses of DiscordMCP.delete_channel: Forbidden, then
Exception. -/
def delete_channel_handle : DiscordExn → PyVal
  | .forbidden _ => errDict "Permission denied"
  | e => errDict (exnStr e)

/-- Except clauses of DiscordMCP.add_reaction: NotFound, Forbidden, then
Exception. -/
def add_reaction_handle : DiscordExn → PyVal
  | .notFound _ => errDict "Message not found"
  | .forbidden _ => errDict "Permission denied"
  | .other m => errDict m

/-- Except clauses of DiscordMCP.add_multiple_reactions: NotFound,
Forbidden, then Exception. -/
def add_multiple_reactions_handle : DiscordExn → PyVal
  | .notFound _ => errDict "Message not found"
  | .forbidden _ => errDict "Permission denied"
  | .other m => errDict m

/-- Except clauses of DiscordMCP.remove_reaction: NotFound, Forbidden,
then Exception. -/
def remove_reaction_handle : DiscordExn → PyVal
  | .notFound _ => errDict "Message not found"
  | .forbidden _ => errDict "Permission denied"
  | .other m => errDict m

/-- Except clause of DiscordMCP.list_channels: bare Exception only. -/
def list_channels_handle : DiscordExn → PyVal
  | e => errDict (exnStr e)

/-- DiscordMCP.send_message (src/main.py lines 54 to 74). -/
def DiscordMCP.send_message (env : DiscordEnv) (cid : Int) (content : PyVal) :
    Except DiscordExn PyVal × List LibCall :=
  pyTry
    (if env.hasChannel cid then
      match env.send cid content with
      | Except.ok mid =>
        (Except.ok (PyVal.pyDict [("status", PyVal.pyStr "success"),
          ("message", PyVal.pyStr "Message sent"),
          ("message_id", PyVal.pyInt mid)]),
         [LibCall.getChannel cid, LibCall.send cid content])
      | Except.error e =>
        (Except.error e, [LibCall.getChannel cid, LibCall.send cid content])
    else
      (Except.ok (statusErrDict "Channel not found"), [LibCall.getChannel cid]))
    send_message_handle

/-- DiscordMCP.read_messages (src/main.py lines 76 to 99). The limit is
passed to channel.history unchanged. -/
def DiscordMCP.read_messages (env : DiscordEnv) (cid limit : Int) :
    Except DiscordExn PyVal × List LibCall :=
  pyTry
    (if env.hasChannel cid then
      match env.history cid limit with
      | Except.ok msgs =>
        (Except.ok (PyVal.pyDict [("messages", PyVal.pyList (msgs.map msgDict))]),
         [LibCall.getChannel cid, LibCall.history cid limit])
      | Except.error e =>
        (Except.error e, [LibCall.getChannel cid, LibCall.history cid limit])
    else
      (Except.ok (errDict "Channel not found"), [LibCall.getChannel cid]))
    read_messages_handle

/-- DiscordMCP.get_user_info (src/main.py lines 101 to 119). -/
def DiscordMCP.get_user_info (env : DiscordEnv) (uid : Int) :
    Except DiscordExn PyVal × List LibCall :=
  pyTry
    (match env.getUser uid with
    | some u => (Except.ok (userDict u), [LibCall.getUser uid])
    | none => (Except.ok (errDict "User not found"), [LibCall.getUser uid]))
    get_user_info_handle

/-- DiscordMCP.list_servers (src/main.py lines 121 to 135). -/
def DiscordMCP.list_servers (env : DiscordEnv) :
    Except DiscordExn PyVal × List LibCall :=
  pyTry (Except.ok (PyVal.pyList (env.guilds.map guildDict)), [])
    list_servers_handle

/-- DiscordMCP.create_text_channel (src/main.py lines 137 to 162). The
category argument is dropped when category_id is falsy (None or 0); the
guild.get_channel category lookup is folded into the createChannel
outcome function of the environment. -/
def DiscordMCP.create_text_channel (env : DiscordEnv) (sid : Int)
    (name : PyVal) (categoryId : Option Int) :
    Except DiscordExn PyVal × List LibCall :=
  pyTry
    (if env.hasGuild sid then
      let category : Option Int :=
        match categoryId with
        | some c => if c != 0 then some c else none
        | none => none
      match env.createChannel sid name category with
      | Except.ok ch =>
        (Except.ok (createdChanDict ch),
         [LibCall.getGuild sid, LibCall.createChannel sid name category])
      | Except.error e =>
        (Except.error e,
         [LibCall.getGuild sid, LibCall.createChannel sid name category])
    else
      (Except.ok (errDict "Server not found"), [LibCall.getGuild sid]))
    create_text_channel_handle

/-- DiscordMCP.delete_channel (src/main.py lines 164 to 179). -/
def DiscordMCP.delete_channel (env : DiscordEnv) (cid : Int) :
    Except DiscordExn PyVal × List LibCall :=
  pyTry
    (if env.hasChannel cid then
      match env.deleteCh cid with
      | Except.ok _ =>
        (Except.ok (PyVal.pyDict [("status", PyVal.pyStr "success")]),
         [LibCall.getChannel cid, LibCall.deleteChannel cid])
      | Except.error e =>
        (Except.error e, [LibCall.getChannel cid, LibCall.deleteChannel cid])
    else
      (Except.ok (errDict "Channel not found"), [LibCall.getChannel cid]))
    delete_channel_handle

/-- DiscordMCP.add_reaction (src/main.py lines 181 to 200). -/
def DiscordMCP.add_reaction (env : DiscordEnv) (cid mid : Int) (emoji : PyVal) :
    Except DiscordExn PyVal × List LibCall :=
  pyTry
    (if env.hasChannel cid then
      match env.fetchMessage cid mid with
      | Except.error e =>
        (Except.error e, [LibCall.getChannel cid, LibCall.fetchMessage cid mid])
      | Except.ok _ =>
        match env.addReaction cid mid emoji with
        | Except.ok _ =>
          (Except.ok (PyVal.pyDict [("status", PyVal.pyStr "success")]),
           [LibCall.getChannel cid, LibCall.fetchMessage cid mid,
            LibCall.addReaction cid mid emoji])
        | Except.error e =>
          (Except.error e,
           [LibCall.getChannel cid, LibCall.fetchMessage cid mid,
            LibCall.addReaction cid mid emoji])
    else
      (Except.ok (errDict "Channel not found"), [LibCall.getChannel cid]))
    add_reaction_handle

/-- The sequential for-loop of add_multiple_reactions: each reaction is
applied in list order; the first raised exception aborts the loop and
propagates; the trace records every add_reaction call actually made,
including the failing one. -/
def addLoop (env : DiscordEnv) (cid mid : Int) :
    List PyVal → Except DiscordExn Unit × List LibCall
  | [] => (Except.ok (), [])
  | e :: rest =>
    match env.addReaction cid mid e with
    | Except.ok _ =>
      let r := addLoop env cid mid rest
      (r.1, LibCall.addReaction cid mid e :: r.2)
    | Except.error ex => (Except.error ex, [LibCall.addReaction cid mid e])

/-- DiscordMCP.add_multiple_reactions (src/main.py lines 202 to 222). -/
def DiscordMCP.add_multiple_reactions (env : DiscordEnv) (cid mid : Int)
    (emojis : List PyVal) : Except DiscordExn PyVal × List LibCall :=
  pyTry
    (if env.hasChannel cid then
      match env.fetchMessage cid mid with
      | Except.error e =>
        (Except.error e, [LibCall.getChannel cid, LibCall.fetchMessage cid mid])
      | Except.ok _ =>
        match addLoop env cid mid emojis with
        | (Except.ok _, t) =>
          (Except.ok (PyVal.pyDict [("status", PyVal.pyStr "success")]),
           LibCall.getChannel cid :: LibCall.fetchMessage cid mid :: t)
        | (Except.error e, t) =>
          (Except.error e,
           LibCall.getChannel cid :: LibCall.fetchMessage cid mid :: t)
    else
      (Except.ok (errDict "Channel not found"), [LibCall.getChannel cid]))
    add_multiple_reactions_handle

/-- DiscordMCP.remove_reaction (src/main.py lines 224 to 243). -/
def DiscordMCP.remove_reaction (env : DiscordEnv) (cid mid : Int)
    (emoji : PyVal) : Except DiscordExn PyVal × List LibCall :=
  pyTry
    (if env.hasChannel cid then
      match env.fetchMessage cid mid with
      | Except.error e =>
        (Except.error e, [LibCall.getChannel cid, LibCall.fetchMessage cid mid])
      | Except.ok _ =>
        match env.removeReaction cid mid emoji with
        | Except.ok _ =>
          (Except.ok (PyVal.pyDict [("status", PyVal.pyStr "success")]),
           [LibCall.getChannel cid, LibCall.fetchMessage cid mid,
            LibCall.removeReaction cid mid emoji])
        | Except.error e =>
          (Except.error e,
           [LibCall.getChannel cid, LibCall.fetchMessage cid mid,
            LibCall.removeReaction cid mid emoji])
    else
      (Except.ok (errDict "Channel not found"), [LibCall.getChannel cid]))
    remove_reaction_handle

/-- DiscordMCP.list_channels (src/main.py lines 246 to 263). -/
def DiscordMCP.list_channels (env : DiscordEnv) (sid : Int) :
    Except DiscordExn PyVal × List LibCall :=
  pyTry
    (if env.hasGuild sid then
      (Except.ok (PyVal.pyList ((env.guildChannels sid).map chanDict)),
       [LibCall.getGuild sid])
    else
      (Except.ok (errDict "Server not found"), [LibCall.getGuild sid]))
    list_channels_handle

/-- The facade catalogue: one constructor per DiscordMCP method, carrying
the coerced arguments a transport hands to it. -/
inductive FacadeCall where
  | sendMessage (channelId : Int) (content : PyVal)
  | readMessages (channelId : Int) (limit : Int)
  | getUserInfo (userId : Int)
  | listServers
  | createTextChannel (serverId : Int) (name : PyVal) (categoryId : Option Int)
  | deleteChannel (channelId : Int)
  | addReaction (channelId : Int) (messageId : Int) (emoji : PyVal)
  | removeReaction (channelId : Int) (messageId : Int) (emoji : PyVal)
  | addMultipleReactions (channelId : Int) (messageId : Int) (emojis : List PyVal)
  | listChannels (serverId : Int)

/-- Dispatch one facade call to the corresponding DiscordMCP method. -/
def runFacade (env : DiscordEnv) : FacadeCall → Except DiscordExn PyVal × List LibCall
  | .sendMessage cid content => DiscordMCP.send_message env cid content
  | .readMessages cid limit => DiscordMCP.read_messages env cid limit
  | .getUserInfo uid => DiscordMCP.get_user_info env uid
  | .listServers => DiscordMCP.list_servers env
  | .createTextChannel sid name catId => DiscordMCP.create_text_channel env sid name catId
  | .deleteChannel cid => DiscordMCP.delete_channel env cid
  | .addReaction cid mid emoji => DiscordMCP.add_reaction env cid mid emoji
  | .removeReaction cid mid emoji => DiscordMCP.remove_reaction env cid mid emoji
  | .addMultipleReactions cid mid emojis => DiscordMCP.add_multiple_reactions env cid mid emojis
  | .listChannels sid => DiscordMCP.list_channels env sid

/-- The eight HTTP POST operations of StreamableHTTPMCP. -/
inductive Op where
  | sendMessage
  | readMessages
  | getUserInfo
  | listServers
  | createTextChannel
  | deleteChannel
  | addReaction
  | removeReaction
deriving DecidableEq

/-- What an HTTP handler decides before any facade method runs: either an
early json_response with an error body and status, or an invocation of
one facade method. -/
inductive HttpStep where
  | reject (status : Nat) (body : PyVal)
  | invoke (call : FacadeCall)

/-- What a WebSocket per-action handler decides: an early error return,
an exception raised out of the handler (int() coercion failure, caught
by the websocket_handler loop), or a facade invocation. -/
inductive WsStep where
  | reject (body : PyVal)
  | raise (msg : String)
  | invoke (call : FacadeCall)

/-- StreamableHTTPMCP.handle_send_message (src/http_mcp_server.py lines
44 to 70): truthiness check on channel_id and content, then readiness,
then int coercion (a coercion failure is caught by the bare except and
mapped to status 500). -/
def handle_send_message (ready : Bool) (data : Req) : HttpStep :=
  let channel_id := getParam data "channel_id"
  let content := getParam data "content"
  if !truthy channel_id || !truthy content then
    HttpStep.reject 400 (errDict "channel_id and content are required")
  else if !ready then
    HttpStep.reject 500 (errDict "Discord bot not initialized")
  else
    match pyToInt channel_id with
    | Except.error e => HttpStep.reject 500 (errDict e)
    | Except.ok cid => HttpStep.invoke (FacadeCall.sendMessage cid content)

/-- StreamableHTTPMCP.handle_read_messages (lines 72 to 98). -/
def handle_read_messages (ready : Bool) (data : Req) : HttpStep :=
  let channel_id := getParam data "channel_id"
  let limit := getParamD data "limit" (PyVal.pyInt 10)
  if !truthy channel_id then
    HttpStep.reject 400 (errDict "channel_id is required")
  else if !ready then
    HttpStep.reject 500 (errDict "Discord bot not initialized")
  else
    match pyToInt channel_id with
    | Except.error e => HttpStep.reject 500 (errDict e)
    | Except.ok cid =>
      match pyToInt limit with
      | Except.error e => HttpStep.reject 500 (errDict e)
      | Except.ok l => HttpStep.invoke (FacadeCall.readMessages cid l)

/-- StreamableHTTPMCP.handle_get_user_info (lines 100 to 125). -/
def handle_get_user_info (ready : Bool) (data : Req) : HttpStep :=
  let user_id := getParam data "user_id"
  if !truthy user_id then
    HttpStep.reject 400 (errDict "user_id is required")
  else if !ready then
    HttpStep.reject 500 (errDict "Discord bot not initialized")
  else
    match pyToInt user_id with
    | Except.error e => HttpStep.reject 500 (errDict e)
    | Except.ok uid => HttpStep.invoke (FacadeCall.getUserInfo uid)

/-- StreamableHTTPMCP.handle_list_servers (lines 127 to 141): the request
body is never parsed; only the readiness check runs. -/
def handle_list_servers (ready : Bool) : HttpStep :=
  if !ready then
    HttpStep.reject 500 (errDict "Discord bot not initialized")
  else
    HttpStep.invoke FacadeCall.listServers

/-- StreamableHTTPMCP.handle_create_text_channel (lines 143 to 172). The
optional category_id is coerced only when truthy, so a category_id of 0
is passed as no category. -/
def handle_create_text_channel (ready : Bool) (data : Req) : HttpStep :=
  let server_id := getParam data "server_id"
  let name := getParam data "name"
  let category_id := getParam data "category_id"
  if !truthy server_id || !truthy name then
    HttpStep.reject 400 (errDict "server_id and name are required")
  else if !ready then
    HttpStep.reject 500 (errDict "Discord bot not initialized")
  else
    match pyToInt server_id with
    | Except.error e => HttpStep.reject 500 (errDict e)
    | Except.ok sid =>
      if truthy category_id then
        match pyToInt category_id with
        | Except.error e => HttpStep.reject 500 (errDict e)
        | Except.ok c => HttpStep.invoke (FacadeCall.createTextChannel sid name (some c))
      else
        HttpStep.invoke (FacadeCall.createTextChannel sid name none)

/-- StreamableHTTPMCP.handle_delete_channel (lines 174 to 199). -/
def handle_delete_channel (ready : Bool) (data : Req) : HttpStep :=
  let channel_id := getParam data "channel_id"
  if !truthy channel_id then
    HttpStep.reject 400 (errDict "channel_id is required")
  else if !ready then
    HttpStep.reject 500 (errDict "Discord bot not initialized")
  else
    match pyToInt channel_id with
    | Except.error e => HttpStep.reject 500 (errDict e)
    | Except.ok cid => HttpStep.invoke (FacadeCall.deleteChannel cid)

/-- StreamableHTTPMCP.handle_add_reaction (lines 201 to 228). -/
def handle_add_reaction (ready : Bool) (data : Req) : HttpStep :=
  let channel_id := getParam data "channel_id"
  let message_id := getParam data "message_id"
  let emoji := getParam data "emoji"
  if !truthy channel_id || !truthy message_id || !truthy emoji then
    HttpStep.reject 400 (errDict "channel_id, message_id, and emoji are required")
  else if !ready then
    HttpStep.reject 500 (errDict "Discord bot not initialized")
  else
    match pyToInt channel_id with
    | Except.error e => HttpStep.reject 500 (errDict e)
    | Except.ok cid =>
      match pyToInt message_id with
      | Except.error e => HttpStep.reject 500 (errDict e)
      | Except.ok mid => HttpStep.invoke (FacadeCall.addReaction cid mid emoji)

/-- StreamableHTTPMCP.handle_remove_reaction (lines 230 to 257). -/
def handle_remove_reaction (ready : Bool) (data : Req) : HttpStep :=
  let channel_id := getParam data "channel_id"
  let message_id := getParam data "message_id"
  let emoji := getParam data "emoji"
  if !truthy channel_id || !truthy message_id || !truthy emoji then
    HttpStep.reject 400 (errDict "channel_id, message_id, and emoji are required")
  else if !ready then
    HttpStep.reject 500 (errDict "Discord bot not initialized")
  else
    match pyToInt channel_id with
    | Except.error e => HttpStep.reject 500 (errDict e)
    | Except.ok cid =>
      match pyToInt message_id with
      | Except.error e => HttpStep.reject 500 (errDict e)
      | Except.ok mid => HttpStep.invoke (FacadeCall.removeReaction cid mid emoji)

/-- Operation-indexed view of the eight HTTP handlers. -/
def httpStep : Op → Bool → Req → HttpStep
  | Op.sendMessage, ready, data => handle_send_message ready data
  | Op.readMessages, ready, data => handle_read_messages ready data
  | Op.getUserInfo, ready, data => handle_get_user_info ready data
  | Op.listServers, ready, _ => handle_list_servers ready
  | Op.createTextChannel, ready, data => handle_create_text_channel ready data
  | Op.deleteChannel, ready, data => handle_delete_channel ready data
  | Op.addReaction, ready, data => handle_add_reaction ready data
  | Op.removeReaction, ready, data => handle_remove_reaction ready data

/-- Completion of an HTTP request after the handler decision: a rejection
is returned as is; an invocation runs the facade method and returns its
value with status 200; a facade exception would be caught by the bare
except clause of the handler and mapped to status 500. -/
def httpFinish (env : DiscordEnv) (s : HttpStep) : Nat × PyVal × List LibCall :=
  match s with
  | HttpStep.reject st b => (st, b, [])
  | HttpStep.invoke c =>
    let r := runFacade env c
    match r.1 with
    | Except.ok v => (200, v, r.2)
    | Except.error e => (500, errDict (exnStr e), r.2)

/-- Full HTTP pipeline for one request: JSON decoding (except for
list_servers, whose handler never reads the body), handler decision,
facade call. The result is the HTTP status, the response body, and the
trace of discord-library calls made. -/
def httpPipeline (op : Op) (ready : Bool) (env : DiscordEnv)
    (body : Except Unit Req) : Nat × PyVal × List LibCall :=
  match op, body with
  | Op.listServers, _ => httpFinish env (handle_list_servers ready)
  | _, Except.error _ => (400, errDict "Invalid JSON", [])
  | _, Except.ok data => httpFinish env (httpStep op ready data)

/-- handle_send_message_via_ws (src/http_mcp_server.py lines 337 to 344). -/
def handle_send_message_via_ws (ready : Bool) (data : Req) : WsStep :=
  let channel_id := getParam data "channel_id"
  let content := getParam data "content"
  if !truthy channel_id || !truthy content then
    WsStep.reject (errDict "channel_id and content are required")
  else if !ready then
    WsStep.reject (errDict "Discord bot not initialized")
  else
    match pyToInt channel_id with
    | Except.error e => WsStep.raise e
    | Except.ok cid => WsStep.invoke (FacadeCall.sendMessage cid content)

/-- handle_read_messages_via_ws (lines 346 to 353). -/
def handle_read_messages_via_ws (ready : Bool) (data : Req) : WsStep :=
  let channel_id := getParam data "channel_id"
  let limit := getParamD data "limit" (PyVal.pyInt 10)
  if !truthy channel_id then
    WsStep.reject (errDict "channel_id is required")
  else if !ready then
    WsStep.reject (errDict "Discord bot not initialized")
  else
    match pyToInt channel_id with
    | Except.error e => WsStep.raise e
    | Except.ok cid =>
      match pyToInt limit with
      | Except.error e => WsStep.raise e
      | Except.ok l => WsStep.invoke (FacadeCall.readMessages cid l)

/-- handle_get_user_info_via_ws (lines 355 to 361). -/
def handle_get_user_info_via_ws (ready : Bool) (data : Req) : WsStep :=
  let user_id := getParam data "user_id"
  if !truthy user_id then
    WsStep.reject (errDict "user_id is required")
  else if !ready then
    WsStep.reject (errDict "Discord bot not initialized")
  else
    match pyToInt user_id with
    | Except.error e => WsStep.raise e
    | Except.ok uid => WsStep.invoke (FacadeCall.getUserInfo uid)

/-- handle_list_servers_via_ws (lines 363 to 366). -/
def handle_list_servers_via_ws (ready : Bool) (_data : Req) : WsStep :=
  if !ready then
    WsStep.reject (errDict "Discord bot not initialized")
  else
    WsStep.invoke FacadeCall.listServers

/-- handle_create_text_channel_via_ws (lines 368 to 378). -/
def handle_create_text_channel_via_ws (ready : Bool) (data : Req) : WsStep :=
  let server_id := getParam data "server_id"
  let name := getParam data "name"
  let category_id := getParam data "category_id"
  if !truthy server_id || !truthy name then
    WsStep.reject (errDict "server_id and name are required")
  else if !ready then
    WsStep.reject (errDict "Discord bot not initialized")
  else
    match pyToInt server_id with
    | Except.error e => WsStep.raise e
    | Except.ok sid =>
      if truthy category_id then
        match pyToInt category_id with
        | Except.error e => WsStep.raise e
        | Except.ok c => WsStep.invoke (FacadeCall.createTextChannel sid name (some c))
      else
        WsStep.invoke (FacadeCall.createTextChannel sid name none)

/-- handle_delete_channel_via_ws (lines 380 to 386). -/
def handle_delete_channel_via_ws (ready : Bool) (data : Req) : WsStep :=
  let channel_id := getParam data "channel_id"
  if !truthy channel_id then
    WsStep.reject (errDict "channel_id is required")
  else if !ready then
    WsStep.reject (errDict "Discord bot not initialized")
  else
    match pyToInt channel_id with
    | Except.error e => WsStep.raise e
    | Except.ok cid => WsStep.invoke (FacadeCall.deleteChannel cid)

/-- handle_add_reaction_via_ws (lines 388 to 396). -/
def handle_add_reaction_via_ws (ready : Bool) (data : Req) : WsStep :=
  let channel_id := getParam data "channel_id"
  let message_id := getParam data "message_id"
  let emoji := getParam data "emoji"
  if !truthy channel_id || !truthy message_id || !truthy emoji then
    WsStep.reject (errDict "channel_id, message_id, and emoji are required")
  else if !ready then
    WsStep.reject (errDict "Discord bot not initialized")
  else
    match pyToInt channel_id with
    | Except.error e => WsStep.raise e
    | Except.ok cid =>
      match pyToInt message_id with
      | Except.error e => WsStep.raise e
      | Except.ok mid => WsStep.invoke (FacadeCall.addReaction cid mid emoji)

/-- handle_remove_reaction_via_ws (lines 398 to 406). -/
def handle_remove_reaction_via_ws (ready : Bool) (data : Req) : WsStep :=
  let channel_id := getParam data "channel_id"
  let message_id := getParam data "message_id"
  let emoji := getParam data "emoji"
  if !truthy channel_id || !truthy message_id || !truthy emoji then
    WsStep.reject (errDict "channel_id, message_id, and emoji are required")
  else if !ready then
    WsStep.reject (errDict "Discord bot not initialized")
  else
    match pyToInt channel_id with
    | Except.error e => WsStep.raise e
    | Except.ok cid =>
      match pyToInt message_id with
      | Except.error e => WsStep.raise e
      | Except.ok mid => WsStep.invoke (FacadeCall.removeReaction cid mid emoji)

/-- Operation-indexed view of the eight per-action WebSocket handlers. -/
def wsStep : Op → Bool → Req → WsStep
  | Op.sendMessage, ready, data => handle_send_message_via_ws ready data
  | Op.readMessages, ready, data => handle_read_messages_via_ws ready data
  | Op.getUserInfo, ready, data => handle_get_user_info_via_ws ready data
  | Op.listServers, ready, data => handle_list_servers_via_ws ready data
  | Op.createTextChannel, ready, data => handle_create_text_channel_via_ws ready data
  | Op.deleteChannel, ready, data => handle_delete_channel_via_ws ready data
  | Op.addReaction, ready, data => handle_add_reaction_via_ws ready data
  | Op.removeReaction, ready, data => handle_remove_reaction_via_ws ready data

/-- Python string comparison of the action field against an action name. -/
def isAction (v : PyVal) (s : String) : Bool :=
  match v with
  | .pyStr t => t == s
  | _ => false

/-- The if and elif chain of websocket_handler matching the action field
against the eight known action names (lines 303 to 318). -/
def actionOf (v : PyVal) : Option Op :=
  if isAction v "send_message" then some Op.sendMessage
  else if isAction v "read_messages" then some Op.readMessages
  else if isAction v "get_user_info" then some Op.getUserInfo
  else if isAction v "list_servers" then some Op.listServers
  else if isAction v "create_text_channel" then some Op.createTextChannel
  else if isAction v "delete_channel" then some Op.deleteChannel
  else if isAction v "add_reaction" then some Op.addReaction
  else if isAction v "remove_reaction" then some Op.removeReaction
  else none

/-- Completion of one WebSocket action: a rejection body is sent as is; a
raised coercion exception is caught by the surrounding except clause and
rendered as an error dict; an invocation runs the facade method and its
value is sent, with a facade exception likewise caught and rendered. -/
def wsFinish (env : DiscordEnv) : WsStep → PyVal
  | WsStep.reject b => b
  | WsStep.raise m => errDict m
  | WsStep.invoke c =>
    match (runFacade env c).1 with
    | Except.ok v => v
    | Except.error e => errDict (exnStr e)

/-- The reply computed for one parsed WebSocket text message (lines 300
to 322): a recognized action is dispatched, an unrecognized one is
answered with the unknown-action dict and the connection continues. -/
def wsReply (ready : Bool) (env : DiscordEnv) (data : Req) : PyVal :=
  match actionOf (getParam data "action") with
  | some op => wsFinish env (wsStep op ready data)
  | none =>
    PyVal.pyDict [("error", PyVal.pyStr "Unknown action"),
      ("action", getParam data "action")]

/-- The reply to one WebSocket TEXT frame: a json.loads failure is
answered with the invalid-JSON dict, otherwise the parsed body is
dispatched. -/
def wsTextReply (ready : Bool) (env : DiscordEnv) : Except Unit Req → PyVal
  | Except.error _ => errDict "Invalid JSON"
  | Except.ok data => wsReply ready env data

/-- One inbound WebSocket frame: a TEXT frame with its json.loads
outcome, an ERROR frame, or any other frame type (ignored by the loop). -/
inductive WsIncoming where
  | text (parsed : Except Unit Req)
  | errorMsg
  | otherType

/-- StreamableHTTPMCPWithWebSocket.websocket_handler (lines 289 to 334):
frames of one connection are consumed strictly in order; each TEXT frame
produces exactly one reply, sent before the next frame is examined; an
ERROR frame breaks the loop; other frame types are skipped. -/
def websocket_handler (ready : Bool) (env : DiscordEnv) :
    List WsIncoming → List PyVal
  | [] => []
  | WsIncoming.text p :: rest =>
    wsTextReply ready env p :: websocket_handler ready env rest
  | WsIncoming.errorMsg :: _ => []
  | WsIncoming.otherType :: rest => websocket_handler ready env rest

/-- The clamp applied by the read_messages MCP tool before calling
channel.history: min(max(1, limit), 100) (src/main.py line 355). -/
def clampLimit (x : Int) : Int := min (max 1 x) 100

/-- The send_message MCP tool (src/main.py lines 303 to 335): readiness
check on the global bot instance, then an inline copy of the facade send
logic. -/
def mcp_send_message (bot : Bool) (env : DiscordEnv) (cid : Int)
    (content : PyVal) : Except DiscordExn PyVal × List LibCall :=
  if !bot then (Except.ok (statusErrDict "Discord bot not initialized"), [])
  else
    pyTry
      (if env.hasChannel cid then
        match env.send cid content with
        | Except.ok mid =>
          (Except.ok (PyVal.pyDict [("status", PyVal.pyStr "success"),
            ("message", PyVal.pyStr "Message sent"),
            ("message_id", PyVal.pyInt mid)]),
           [LibCall.getChannel cid, LibCall.send cid content])
        | Except.error e =>
          (Except.error e, [LibCall.getChannel cid, LibCall.send cid content])
      else
        (Except.ok (statusErrDict "Channel not found"), [LibCall.getChannel cid]))
      send_message_handle

/-- Except clauses of the read_messages MCP tool: Forbidden, then a bare
Exception clause, each returning a one-element error list. -/
def mcp_read_messages_handle : DiscordExn → PyVal
  | .forbidden _ => PyVal.pyList [errDict "Permission denied"]
  | e => PyVal.pyList [errDict (exnStr e)]

/-- The read_messages MCP tool (src/main.py lines 337 to 373): readiness
check, then channel lookup and history with the limit clamped to the
range 1 to 100. -/
def mcp_read_messages (bot : Bool) (env : DiscordEnv) (cid limit : Int) :
    Except DiscordExn PyVal × List LibCall :=
  if !bot then (Except.ok (PyVal.pyList [errDict "Discord bot not initialized"]), [])
  else
    pyTry
      (if env.hasChannel cid then
        match env.history cid (clampLimit limit) with
        | Except.ok msgs =>
          (Except.ok (PyVal.pyList (msgs.map msgDict)),
           [LibCall.getChannel cid, LibCall.history cid (clampLimit limit)])
        | Except.error e =>
          (Except.error e,
           [LibCall.getChannel cid, LibCall.history cid (clampLimit limit)])
      else
        (Except.ok (PyVal.pyList [errDict "Channel not found"]),
         [LibCall.getChannel cid]))
      mcp_read_messages_handle

/-- The create_text_channel MCP tool (src/main.py lines 467 to 490):
readiness check, then delegation to the facade method. -/
def mcp_create_text_channel (bot : Bool) (env : DiscordEnv) (sid : Int)
    (name : PyVal) (catId : Option Int) : Except DiscordExn PyVal × List LibCall :=
  if !bot then (Except.ok (errDict "Discord bot not initialized"), [])
  else DiscordMCP.create_text_channel env sid name catId

/-- The delete_channel MCP tool (lines 492 to 513). -/
def mcp_delete_channel (bot : Bool) (env : DiscordEnv) (cid : Int) :
    Except DiscordExn PyVal × List LibCall :=
  if !bot then (Except.ok (errDict "Discord bot not initialized"), [])
  else DiscordMCP.delete_channel env cid

/-- The add_reaction MCP tool (lines 515 to 538). -/
def mcp_add_reaction (bot : Bool) (env : DiscordEnv) (cid mid : Int)
    (emoji : PyVal) : Except DiscordExn PyVal × List LibCall :=
  if !bot then (Except.ok (errDict "Discord bot not initialized"), [])
  else DiscordMCP.add_reaction env cid mid emoji

/-- The add_multiple_reactions MCP tool (lines 540 to 563). -/
def mcp_add_multiple_reactions (bot : Bool) (env : DiscordEnv) (cid mid : Int)
    (emojis : List PyVal) : Except DiscordExn PyVal × List LibCall :=
  if !bot then (Except.ok (errDict "Discord bot not initialized"), [])
  else DiscordMCP.add_multiple_reactions env cid mid emojis

/-- The remove_reaction MCP tool (lines 565 to 588). -/
def mcp_remove_reaction (bot : Bool) (env : DiscordEnv) (cid mid : Int)
    (emoji : PyVal) : Except DiscordExn PyVal × List LibCall :=
  if !bot then (Except.ok (errDict "Discord bot not initialized"), [])
  else DiscordMCP.remove_reaction env cid mid emoji

/-- Except clause of the user_info resource: bare Exception only. -/
def user_info_resource_handle : DiscordExn → PyVal
  | e => errDict (exnStr e)

/-- The users info resource (src/main.py lines 375 to 406): readiness
check, then fetch_user. -/
def user_info_resource (bot : Bool) (env : DiscordEnv) (uid : Int) :
    Except DiscordExn PyVal × List LibCall :=
  if !bot then (Except.ok (errDict "Discord bot not initialized"), [])
  else
    pyTry
      (match env.fetchUser uid with
      | Except.ok (some u) => (Except.ok (userDict u), [LibCall.fetchUser uid])
      | Except.ok none => (Except.ok (errDict "User not found"), [LibCall.fetchUser uid])
      | Except.error e => (Except.error e, [LibCall.fetchUser uid]))
      user_info_resource_handle

/-- Except clause of the servers list resource: bare Exception only,
returning a one-element error list. -/
def list_servers_resource_handle : DiscordExn → PyVal
  | e => PyVal.pyList [errDict (exnStr e)]

/-- The servers list resource (src/main.py lines 408 to 432). -/
def list_servers_resource (bot : Bool) (env : DiscordEnv) :
    Except DiscordExn PyVal × List LibCall :=
  if !bot then (Except.ok (PyVal.pyList [errDict "Discord bot not initialized"]), [])
  else
    pyTry (Except.ok (PyVal.pyList (env.guilds.map guildDict)), [])
      list_servers_resource_handle

/-- The channels list resource, in its effective later definition
(src/main.py lines 590 to 604): readiness check, then delegation to the
facade list_channels method. -/
def list_channels_resource (bot : Bool) (env : DiscordEnv) (sid : Int) :
    Except DiscordExn PyVal × List LibCall :=
  if !bot then (Except.ok (PyVal.pyList [errDict "Discord bot not initialized"]), [])
  else DiscordMCP.list_channels env sid

/-- Required parameters of each HTTP and WebSocket operation, as checked
by the handlers. -/
def requiredOf : Op → List String
  | Op.sendMessage => ["channel_id", "content"]
  | Op.readMessages => ["channel_id"]
  | Op.getUserInfo => ["user_id"]
  | Op.listServers => []
  | Op.createTextChannel => ["server_id", "name"]
  | Op.deleteChannel => ["channel_id"]
  | Op.addReaction => ["channel_id", "message_id", "emoji"]
  | Op.removeReaction => ["channel_id", "message_id", "emoji"]

/-- The literal error message each handler returns when a required
parameter is missing. -/
def requiredMsgOf : Op → String
  | Op.sendMessage => "channel_id and content are required"
  | Op.readMessages => "channel_id is required"
  | Op.getUserInfo => "user_id is required"
  | Op.listServers => ""
  | Op.createTextChannel => "server_id and name are required"
  | Op.deleteChannel => "channel_id is required"
  | Op.addReaction => "channel_id, message_id, and emoji are required"
  | Op.removeReaction => "channel_id, message_id, and emoji are required"

/-- All required parameters of the operation are present and truthy. -/
def allReq (op : Op) (data : Req) : Prop :=
  ∀ p ∈ requiredOf op, truthy (getParam data p) = true

/-- Whether the character list n occurs at the start of h. -/
def leadMatch : List Char → List Char → Bool
  | [], _ => true
  | _ :: _, [] => false
  | a :: as, b :: bs => a == b && leadMatch as bs

/-- Whether the character list n occurs anywhere in h. -/
def occursIn (n : List Char) : List Char → Bool
  | [] => n.isEmpty
  | c :: t => leadMatch n (c :: t) || occursIn n t

/-- Whether the message names the parameter, that is, contains its name
as a substring. -/
def strNames (msg p : String) : Bool := occursIn p.toList msg.toList

/-- The response body produced by a dispatched facade call, with a facade
exception rendered by the top-level guard of the transport handler. -/
def facadeVal (env : DiscordEnv) (c : FacadeCall) : PyVal :=
  match (runFacade env c).1 with
  | Except.ok v => v
  | Except.error e => errDict (exnStr e)

/-- The limits passed to channel.history within a trace. -/
def historyLimits (t : List LibCall) : List Int :=
  t.filterMap (fun c =>
    match c with
    | LibCall.history _ l => some l
    | _ => none)

/-- A concrete discord environment with no channels, guilds or users,
used to evaluate the theorems on closed inputs. -/
def stubEnv : DiscordEnv :=
  { hasChannel := fun _ => false
    send := fun _ _ => Except.ok 999
    history := fun _ _ => Except.ok []
    getUser := fun _ => none
    fetchUser := fun _ => Except.ok none
    guilds := []
    hasGuild := fun _ => false
    guildChannels := fun _ => []
    createChannel := fun _ _ _ => Except.error (DiscordExn.other "boom")
    deleteCh := fun _ => Except.ok ()
    fetchMessage := fun _ _ => Except.ok ()
    addReaction := fun _ _ _ => Except.ok ()
    removeReaction := fun _ _ _ => Except.ok () }

/-- A concrete environment in which every channel exists and history
succeeds with no messages. -/
def c1Env : DiscordEnv :=
  { hasChannel := fun _ => true
    send := fun _ _ => Except.ok 999
    history := fun _ _ => Except.ok []
    getUser := fun _ => none
    fetchUser := fun _ => Except.ok none
    guilds := []
    hasGuild := fun _ => false
    guildChannels := fun _ => []
    createChannel := fun _ _ _ => Except.error (DiscordExn.other "boom")
    deleteCh := fun _ => Except.ok ()
    fetchMessage := fun _ _ => Except.ok ()
    addReaction := fun _ _ _ => Except.ok ()
    removeReaction := fun _ _ _ => Except.ok () }

/-- A concrete environment in which sending and reacting raise a generic
exception with message kaboom. -/
def c6Env : DiscordEnv :=
  { hasChannel := fun _ => true
    send := fun _ _ => Except.error (DiscordExn.other "kaboom")
    history := fun _ _ => Except.ok []
    getUser := fun _ => none
    fetchUser := fun _ => Except.ok none
    guilds := []
    hasGuild := fun _ => false
    guildChannels := fun _ => []
    createChannel := fun _ _ _ => Except.error (DiscordExn.other "boom")
    deleteCh := fun _ => Except.ok ()
    fetchMessage := fun _ _ => Except.ok ()
    addReaction := fun _ _ _ => Except.error (DiscordExn.other "kaboom")
    removeReaction := fun _ _ _ => Except.ok () }

/-- A concrete environment in which adding the reaction bad raises
Forbidden while every other reaction succeeds. -/
def c7Env : DiscordEnv :=
  { hasChannel := fun _ => true
    send := fun _ _ => Except.ok 999
    history := fun _ _ => Except.ok []
    getUser := fun _ => none
    fetchUser := fun _ => Except.ok none
    guilds := []
    hasGuild := fun _ => false
    guildChannels := fun _ => []
    createChannel := fun _ _ _ => Except.error (DiscordExn.other "boom")
    deleteCh := fun _ => Except.ok ()
    fetchMessage := fun _ _ => Except.ok ()
    addReaction := fun _ _ e =>
      match e with
      | PyVal.pyStr "bad" => Except.error (DiscordExn.forbidden "403 Forbidden")
      | _ => Except.ok ()
    removeReaction := fun _ _ _ => Except.ok () }

lemma getParam_of_not_hasParam (data : Req) (k : String)
    (h : hasParam data k = false) : getParam data k = PyVal.pyNone := by
  induction data with
  | nil => rfl
  | cons kv rest ih =>
    obtain ⟨k1, v1⟩ := kv
    simp only [hasParam, Bool.or_eq_false_iff] at h
    simp only [getParam, h.1, Bool.false_eq_true, if_false]
    exact ih h.2

lemma pyTry_ok (b : Except DiscordExn PyVal × List LibCall)
    (h : DiscordExn → PyVal) : ∃ v, (pyTry b h).1 = Except.ok v := by
  obtain ⟨r, t⟩ := b
  cases r with
  | ok v => exact ⟨v, rfl⟩
  | error e => exact ⟨h e, rfl⟩

lemma runFacade_ok (env : DiscordEnv) (c : FacadeCall) :
    ∃ v, (runFacade env c).1 = Except.ok v := by
  cases c with
  | sendMessage cid content =>
    exact pyTry_ok _ _
  | readMessages cid limit => exact pyTry_ok _ _
  | getUserInfo uid => exact pyTry_ok _ _
  | listServers => exact pyTry_ok _ _
  | createTextChannel sid name catId => exact pyTry_ok _ _
  | deleteChannel cid => exact pyTry_ok _ _
  | addReaction cid mid emoji => exact pyTry_ok _ _
  | removeReaction cid mid emoji => exact pyTry_ok _ _
  | addMultipleReactions cid mid emojis => exact pyTry_ok _ _
  | listChannels sid => exact pyTry_ok _ _

lemma clampLimit_idem (x : Int) : clampLimit (clampLimit x) = clampLimit x := by
  simp only [clampLimit]
  omega

lemma addLoop_all_ok (env : DiscordEnv) (cid mid : Int) :
    ∀ emojis : List PyVal,
    (∀ e ∈ emojis, env.addReaction cid mid e = Except.ok ()) →
    addLoop env cid mid emojis
      = (Except.ok (), emojis.map (fun e => LibCall.addReaction cid mid e)) := by
  intro emojis h
  induction emojis with
  | nil => rfl
  | cons e rest ih =>
    have he := h e (by simp)
    simp [addLoop, he, ih (fun x hx => h x (by simp [hx]))]

lemma addLoop_fails (env : DiscordEnv) (cid mid : Int) :
    ∀ (emojis : List PyVal) (k : Nat) (hk : k < emojis.length) (ex : DiscordExn),
    (∀ e ∈ emojis.take k, env.addReaction cid mid e = Except.ok ()) →
    env.addReaction cid mid (emojis.get ⟨k, hk⟩) = Except.error ex →
    addLoop env cid mid emojis
      = (Except.error ex,
         (emojis.take (k + 1)).map (fun e => LibCall.addReaction cid mid e)) := by
  intro emojis
  induction emojis with
  | nil => intro k hk; exact absurd hk (by simp)
  | cons e rest ih =>
    intro k hk ex hok hbad
    cases k with
    | zero =>
      simp only [List.get] at hbad
      simp [addLoop, hbad]
    | succ k =>
      have he := hok e (by simp)
      have hk2 : k < rest.length := by simpa using hk
      have hbad2 : env.addReaction cid mid (rest.get ⟨k, hk2⟩) = Except.error ex := by
        simpa using hbad
      have hok2 : ∀ x ∈ rest.take k, env.addReaction cid mid x = Except.ok () :=
        fun x hx => hok x (by simp [hx])
      simp [addLoop, he, ih k hk2 ex hok2 hbad2]

/-- Claim C8: the limit-clamping function used by message retrieval,
clamp(x) = min(max(1, x), 100), is idempotent: for every integer x,
clamp(clamp(x)) = clamp(x). -/
theorem gateway_C8 : ∀ x : Int, clampLimit (clampLimit x) = clampLimit x :=
  fun x => clampLimit_idem x

/-- Claim C9: at the HTTP and WebSocket interfaces, required-parameter
presence is decided by Python truthiness, not key presence: a falsy but
well-formed value (channel_id of 0, empty content, message_id of 0,
empty emoji) is rejected with the same required-parameter error as a
missing key, and an optional category_id of 0 in create_text_channel is
silently replaced by no category. -/
theorem gateway_C9 :
    httpStep Op.sendMessage true [("channel_id", PyVal.pyInt 0), ("content", PyVal.pyStr "hi")]
      = HttpStep.reject 400 (errDict "channel_id and content are required")
    ∧ httpStep Op.sendMessage true [("channel_id", PyVal.pyInt 123), ("content", PyVal.pyStr "")]
      = HttpStep.reject 400 (errDict "channel_id and content are required")
    ∧ wsStep Op.addReaction true
        [("channel_id", PyVal.pyInt 1), ("message_id", PyVal.pyInt 0), ("emoji", PyVal.pyStr "x")]
      = WsStep.reject (errDict "channel_id, message_id, and emoji are required")
    ∧ wsStep Op.addReaction true
        [("channel_id", PyVal.pyInt 1), ("message_id", PyVal.pyInt 2), ("emoji", PyVal.pyStr "")]
      = WsStep.reject (errDict "channel_id, message_id, and emoji are required")
    ∧ httpStep Op.createTextChannel true
        [("server_id", PyVal.pyInt 1), ("name", PyVal.pyStr "general"), ("category_id", PyVal.pyInt 0)]
      = HttpStep.invoke (FacadeCall.createTextChannel 1 (PyVal.pyStr "general") none)
    ∧ wsStep Op.createTextChannel true
        [("server_id", PyVal.pyInt 1), ("name", PyVal.pyStr "general"), ("category_id", PyVal.pyInt 0)]
      = WsStep.invoke (FacadeCall.createTextChannel 1 (PyVal.pyStr "general") none) :=
  ⟨rfl, rfl, rfl, rfl, rfl, rfl⟩

/-- Claim C5: a WebSocket text message whose action field is not a
recognized operation name is answered with exactly the dict containing
error Unknown action and the given action value; the connection is not
closed, and the remaining messages on the connection are processed
exactly as they would have been without the unknown-action message. -/
theorem gateway_C5 : ∀ (ready : Bool) (env : DiscordEnv) (data : Req)
    (rest : List WsIncoming),
    actionOf (getParam data "action") = none →
    websocket_handler ready env (WsIncoming.text (Except.ok data) :: rest)
      = PyVal.pyDict [("error", PyVal.pyStr "Unknown action"),
          ("action", getParam data "action")]
        :: websocket_handler ready env rest := by
  intro ready env data rest h
  simp [websocket_handler, wsTextReply, wsReply, h]

/-- Claim C5 witness: the unknown action frobnicate is answered with the
unknown-action dict and a following list_servers message on the same
connection still succeeds. -/
theorem gateway_C5_witness :
    websocket_handler true stubEnv
      [WsIncoming.text (Except.ok [("action", PyVal.pyStr "frobnicate")]),
       WsIncoming.text (Except.ok [("action", PyVal.pyStr "list_servers")])]
      = [PyVal.pyDict [("error", PyVal.pyStr "Unknown action"),
          ("action", PyVal.pyStr "frobnicate")],
         PyVal.pyList []] := by
  rw [gateway_C5 true stubEnv [("action", PyVal.pyStr "frobnicate")]
    [WsIncoming.text (Except.ok [("action", PyVal.pyStr "list_servers")])] rfl]
  rfl

/-- Claim C10: within one WebSocket connection messages are processed
strictly sequentially: the reply to each text message is emitted before
the rest of the stream is examined, and for a stream of text messages
the reply list is the in-order image of the message list, so reply order
equals arrival order. -/
theorem gateway_C10 : ∀ (ready : Bool) (env : DiscordEnv)
    (msgs : List WsIncoming),
    (∀ m ∈ msgs, ∃ p, m = WsIncoming.text p) →
    websocket_handler ready env msgs
      = msgs.map (fun m =>
          match m with
          | WsIncoming.text p => wsTextReply ready env p
          | WsIncoming.errorMsg => PyVal.pyNone
          | WsIncoming.otherType => PyVal.pyNone)
    ∧ (∀ p rest, websocket_handler ready env (WsIncoming.text p :: rest)
        = wsTextReply ready env p :: websocket_handler ready env rest) := by
  intro ready env msgs h
  constructor
  · induction msgs with
    | nil => rfl
    | cons m rest ih =>
      obtain ⟨p, rfl⟩ := h m (by simp)
      simp only [websocket_handler, List.map]
      exact congrArg _ (ih (fun x hx => h x (by simp [hx])))
  · intro p rest
    rfl

/-- Claim C10 witness: a two-message text stream produces the two
replies in arrival order. -/
theorem gateway_C10_witness :
    websocket_handler true stubEnv
      [WsIncoming.text (Except.ok [("action", PyVal.pyStr "list_servers")]),
       WsIncoming.text (Except.error ())]
      = [PyVal.pyList [], errDict "Invalid JSON"] := by
  have h := (gateway_C10 true stubEnv
    [WsIncoming.text (Except.ok [("action", PyVal.pyStr "list_servers")]),
     WsIncoming.text (Except.error ())]
    (by intro m hm; simp at hm; rcases hm with rfl | rfl
        · exact ⟨_, rfl⟩
        · exact ⟨_, rfl⟩)).1
  rw [h]
  rfl

/-- Claim C1 counterexample: an HTTP read_messages request with a limit
of 500 reaches channel.history with limit 500, not 100: the transport
hands the raw limit to the DiscordMCP.read_messages facade method, which
passes it through unclamped. -/
theorem gateway_C1_counterexample :
    httpStep Op.readMessages true [("channel_id", PyVal.pyInt 5), ("limit", PyVal.pyInt 500)]
      = HttpStep.invoke (FacadeCall.readMessages 5 500)
    ∧ historyLimits (httpPipeline Op.readMessages true c1Env
        (Except.ok [("channel_id", PyVal.pyInt 5), ("limit", PyVal.pyInt 500)])).2.2
      = [500]
    ∧ (500 : Int) ≠ 100 :=
  ⟨rfl, rfl, by decide⟩

/-- Claim C1 as amended: the clamp to the range 1 to 100 is applied on
the MCP tool path of read_messages before channel.history is called
(500 maps to 100, 0 maps to 1, no out-of-range limit is ever rejected:
the tool behaves identically on a raw and on a clamped limit), while the
DiscordMCP.read_messages method used by the HTTP and WebSocket
transports passes the limit to channel.history unclamped. -/
theorem gateway_C1_amended :
    (∀ (env : DiscordEnv) (cid limit : Int), env.hasChannel cid = true →
      (mcp_read_messages true env cid limit).2
        = [LibCall.getChannel cid, LibCall.history cid (clampLimit limit)])
    ∧ (∀ (bot : Bool) (env : DiscordEnv) (cid limit : Int),
        mcp_read_messages bot env cid limit
          = mcp_read_messages bot env cid (clampLimit limit))
    ∧ clampLimit 500 = 100 ∧ clampLimit 0 = 1
    ∧ (∀ limit : Int, 1 ≤ clampLimit limit ∧ clampLimit limit ≤ 100)
    ∧ (∀ (env : DiscordEnv) (cid limit : Int), env.hasChannel cid = true →
        (DiscordMCP.read_messages env cid limit).2
          = [LibCall.getChannel cid, LibCall.history cid limit]) := by
  refine ⟨?_, ?_, by decide, by decide, ?_, ?_⟩
  · intro env cid limit hch
    cases hh : env.history cid (clampLimit limit) with
    | ok msgs => simp [mcp_read_messages, hch, hh, pyTry]
    | error e => simp [mcp_read_messages, hch, hh, pyTry]
  · intro bot env cid limit
    cases bot with
    | false => rfl
    | true => simp [mcp_read_messages, clampLimit_idem]
  · intro limit
    simp only [clampLimit]
    omega
  · intro env cid limit hch
    cases hh : env.history cid limit with
    | ok msgs => simp [DiscordMCP.read_messages, hch, hh, pyTry]
    | error e => simp [DiscordMCP.read_messages, hch, hh, pyTry]

/-- Claim C1 amended witness: with an existing channel the MCP tool at
limit 500 calls history with the clamped limit, and the facade method at
limit 500 calls history with 500. -/
theorem gateway_C1_amended_witness :
    (mcp_read_messages true c1Env 5 500).2
      = [LibCall.getChannel 5, LibCall.history 5 (clampLimit 500)]
    ∧ (DiscordMCP.read_messages c1Env 5 500).2
      = [LibCall.getChannel 5, LibCall.history 5 500] :=
  ⟨gateway_C1_amended.1 c1Env 5 500 rfl,
   gateway_C1_amended.2.2.2.2.2 c1Env 5 500 rfl⟩

/-- Claim C2: for every HTTP and WebSocket operation, a request missing a
required parameter is answered with the invalid-request error body that
names the offending parameter (HTTP status 400), and the handler never
reaches the invoke step, so the facade is not called. -/
theorem gateway_C2 : ∀ (op : Op) (ready : Bool) (data : Req) (p : String),
    p ∈ requiredOf op → hasParam data p = false →
    httpStep op ready data = HttpStep.reject 400 (errDict (requiredMsgOf op))
    ∧ wsStep op ready data = WsStep.reject (errDict (requiredMsgOf op))
    ∧ strNames (requiredMsgOf op) p = true := by
  intro op ready data p hp hk
  have hget := getParam_of_not_hasParam data p hk
  cases op with
  | sendMessage =>
    simp only [requiredOf, List.mem_cons, List.not_mem_nil, or_false] at hp
    rcases hp with rfl | rfl
    · exact ⟨by simp [httpStep, handle_send_message, hget, truthy, requiredMsgOf],
        by simp [wsStep, handle_send_message_via_ws, hget, truthy, requiredMsgOf],
        by decide⟩
    · exact ⟨by simp [httpStep, handle_send_message, hget, truthy, requiredMsgOf],
        by simp [wsStep, handle_send_message_via_ws, hget, truthy, requiredMsgOf],
        by decide⟩
  | readMessages =>
    simp only [requiredOf, List.mem_cons, List.not_mem_nil, or_false] at hp
    rcases hp with rfl
    exact ⟨by simp [httpStep, handle_read_messages, hget, truthy, requiredMsgOf],
      by simp [wsStep, handle_read_messages_via_ws, hget, truthy, requiredMsgOf],
      by decide⟩
  | getUserInfo =>
    simp only [requiredOf, List.mem_cons, List.not_mem_nil, or_false] at hp
    rcases hp with rfl
    exact ⟨by simp [httpStep, handle_get_user_info, hget, truthy, requiredMsgOf],
      by simp [wsStep, handle_get_user_info_via_ws, hget, truthy, requiredMsgOf],
      by decide⟩
  | listServers =>
    simp [requiredOf] at hp
  | createTextChannel =>
    simp only [requiredOf, List.mem_cons, List.not_mem_nil, or_false] at hp
    rcases hp with rfl | rfl
    · exact ⟨by simp [httpStep, handle_create_text_channel, hget, truthy, requiredMsgOf],
        by simp [wsStep, handle_create_text_channel_via_ws, hget, truthy, requiredMsgOf],
        by decide⟩
    · exact ⟨by simp [httpStep, handle_create_text_channel, hget, truthy, requiredMsgOf],
        by simp [wsStep, handle_create_text_channel_via_ws, hget, truthy, requiredMsgOf],
        by decide⟩
  | deleteChannel =>
    simp only [requiredOf, List.mem_cons, List.not_mem_nil, or_false] at hp
    rcases hp with rfl
    exact ⟨by simp [httpStep, handle_delete_channel, hget, truthy, requiredMsgOf],
      by simp [wsStep, handle_delete_channel_via_ws, hget, truthy, requiredMsgOf],
      by decide⟩
  | addReaction =>
    simp only [requiredOf, List.mem_cons, List.not_mem_nil, or_false] at hp
    rcases hp with rfl | rfl | rfl
    · exact ⟨by simp [httpStep, handle_add_reaction, hget, truthy, requiredMsgOf],
        by simp [wsStep, handle_add_reaction_via_ws, hget, truthy, requiredMsgOf],
        by decide⟩
    · exact ⟨by simp [httpStep, handle_add_reaction, hget, truthy, requiredMsgOf],
        by simp [wsStep, handle_add_reaction_via_ws, hget, truthy, requiredMsgOf],
        by decide⟩
    · exact ⟨by simp [httpStep, handle_add_reaction, hget, truthy, requiredMsgOf],
        by simp [wsStep, handle_add_reaction_via_ws, hget, truthy, requiredMsgOf],
        by decide⟩
  | removeReaction =>
    simp only [requiredOf, List.mem_cons, List.not_mem_nil, or_false] at hp
    rcases hp with rfl | rfl | rfl
    · exact ⟨by simp [httpStep, handle_remove_reaction, hget, truthy, requiredMsgOf],
        by simp [wsStep, handle_remove_reaction_via_ws, hget, truthy, requiredMsgOf],
        by decide⟩
    · exact ⟨by simp [httpStep, handle_remove_reaction, hget, truthy, requiredMsgOf],
        by simp [wsStep, handle_remove_reaction_via_ws, hget, truthy, requiredMsgOf],
        by decide⟩
    · exact ⟨by simp [httpStep, handle_remove_reaction, hget, truthy, requiredMsgOf],
        by simp [wsStep, handle_remove_reaction_via_ws, hget, truthy, requiredMsgOf],
        by decide⟩

/-- Claim C2 witness: an HTTP and a WebSocket send_message request
without the channel_id key get the required-parameter rejection whose
message names channel_id. -/
theorem gateway_C2_witness :
    httpStep Op.sendMessage true [("content", PyVal.pyStr "hi")]
      = HttpStep.reject 400 (errDict "channel_id and content are required")
    ∧ wsStep Op.sendMessage true [("content", PyVal.pyStr "hi")]
      = WsStep.reject (errDict "channel_id and content are required")
    ∧ strNames "channel_id and content are required" "channel_id" = true := by
  have h := gateway_C2 Op.sendMessage true [("content", PyVal.pyStr "hi")]
    "channel_id" (by simp [requiredOf]) rfl
  simpa [requiredMsgOf] using h

/-- Claim C3: while the bot instance is not initialized, no operation on
any transport reaches the facade: every HTTP and WebSocket handler
decision is a rejection (never an invocation, never even a raised
coercion error), a fully supplied request gets exactly the
bot-not-initialized envelope (HTTP status 500), and every MCP tool and
resource returns its bot-not-initialized envelope with an empty
discord-library call trace. -/
theorem gateway_C3 : ∀ (op : Op) (data : Req) (env : DiscordEnv)
    (cid mid sid uid limit : Int) (content emoji name : PyVal)
    (emojis : List PyVal) (catId : Option Int),
    (∀ c, httpStep op false data ≠ HttpStep.invoke c)
    ∧ (∀ c, wsStep op false data ≠ WsStep.invoke c)
    ∧ (∀ m, wsStep op false data ≠ WsStep.raise m)
    ∧ (allReq op data →
        httpStep op false data = HttpStep.reject 500 (errDict "Discord bot not initialized")
        ∧ wsStep op false data = WsStep.reject (errDict "Discord bot not initialized"))
    ∧ mcp_send_message false env cid content
        = (Except.ok (statusErrDict "Discord bot not initialized"), [])
    ∧ mcp_read_messages false env cid limit
        = (Except.ok (PyVal.pyList [errDict "Discord bot not initialized"]), [])
    ∧ mcp_create_text_channel false env sid name catId
        = (Except.ok (errDict "Discord bot not initialized"), [])
    ∧ mcp_delete_channel false env cid
        = (Except.ok (errDict "Discord bot not initialized"), [])
    ∧ mcp_add_reaction false env cid mid emoji
        = (Except.ok (errDict "Discord bot not initialized"), [])
    ∧ mcp_add_multiple_reactions false env cid mid emojis
        = (Except.ok (errDict "Discord bot not initialized"), [])
    ∧ mcp_remove_reaction false env cid mid emoji
        = (Except.ok (errDict "Discord bot not initialized"), [])
    ∧ user_info_resource false env uid
        = (Except.ok (errDict "Discord bot not initialized"), [])
    ∧ list_servers_resource false env
        = (Except.ok (PyVal.pyList [errDict "Discord bot not initialized"]), [])
    ∧ list_channels_resource false env sid
        = (Except.ok (PyVal.pyList [errDict "Discord bot not initialized"]), []) := by
  intro op data env cid mid sid uid limit content emoji name emojis catId
  refine ⟨?_, ?_, ?_, ?_, rfl, rfl, rfl, rfl, rfl, rfl, rfl, rfl, rfl, rfl⟩
  · intro c
    cases op <;>
      simp only [httpStep, handle_send_message, handle_read_messages,
        handle_get_user_info, handle_list_servers, handle_create_text_channel,
        handle_delete_channel, handle_add_reaction, handle_remove_reaction] <;>
      split <;> simp_all
  · intro c
    cases op <;>
      simp only [wsStep, handle_send_message_via_ws, handle_read_messages_via_ws,
        handle_get_user_info_via_ws, handle_list_servers_via_ws,
        handle_create_text_channel_via_ws, handle_delete_channel_via_ws,
        handle_add_reaction_via_ws, handle_remove_reaction_via_ws] <;>
      split <;> simp_all
  · intro m
    cases op <;>
      simp only [wsStep, handle_send_message_via_ws, handle_read_messages_via_ws,
        handle_get_user_info_via_ws, handle_list_servers_via_ws,
        handle_create_text_channel_via_ws, handle_delete_channel_via_ws,
        handle_add_reaction_via_ws, handle_remove_reaction_via_ws] <;>
      split <;> simp_all
  · intro hall
    cases op with
    | sendMessage =>
      have h1 := hall "channel_id" (by simp [requiredOf])
      have h2 := hall "content" (by simp [requiredOf])
      exact ⟨by simp [httpStep, handle_send_message, h1, h2],
        by simp [wsStep, handle_send_message_via_ws, h1, h2]⟩
    | readMessages =>
      have h1 := hall "channel_id" (by simp [requiredOf])
      exact ⟨by simp [httpStep, handle_read_messages, h1],
        by simp [wsStep, handle_read_messages_via_ws, h1]⟩
    | getUserInfo =>
      have h1 := hall "user_id" (by simp [requiredOf])
      exact ⟨by simp [httpStep, handle_get_user_info, h1],
        by simp [wsStep, handle_get_user_info_via_ws, h1]⟩
    | listServers =>
      exact ⟨by simp [httpStep, handle_list_servers],
        by simp [wsStep, handle_list_servers_via_ws]⟩
    | createTextChannel =>
      have h1 := hall "server_id" (by simp [requiredOf])
      have h2 := hall "name" (by simp [requiredOf])
      exact ⟨by simp [httpStep, handle_create_text_channel, h1, h2],
        by simp [wsStep, handle_create_text_channel_via_ws, h1, h2]⟩
    | deleteChannel =>
      have h1 := hall "channel_id" (by simp [requiredOf])
      exact ⟨by simp [httpStep, handle_delete_channel, h1],
        by simp [wsStep, handle_delete_channel_via_ws, h1]⟩
    | addReaction =>
      have h1 := hall "channel_id" (by simp [requiredOf])
      have h2 := hall "message_id" (by simp [requiredOf])
      have h3 := hall "emoji" (by simp [requiredOf])
      exact ⟨by simp [httpStep, handle_add_reaction, h1, h2, h3],
        by simp [wsStep, handle_add_reaction_via_ws, h1, h2, h3]⟩
    | removeReaction =>
      have h1 := hall "channel_id" (by simp [requiredOf])
      have h2 := hall "message_id" (by simp [requiredOf])
      have h3 := hall "emoji" (by simp [requiredOf])
      exact ⟨by simp [httpStep, handle_remove_reaction, h1, h2, h3],
        by simp [wsStep, handle_remove_reaction_via_ws, h1, h2, h3]⟩

/-- Claim C3 witness: with the bot uninitialized, a fully supplied HTTP
send_message is answered with the bot-not-initialized rejection at
status 500, and the send_message MCP tool returns its envelope with an
empty call trace. -/
theorem gateway_C3_witness :
    httpStep Op.sendMessage false [("channel_id", PyVal.pyInt 1), ("content", PyVal.pyStr "x")]
      = HttpStep.reject 500 (errDict "Discord bot not initialized")
    ∧ mcp_send_message false stubEnv 1 (PyVal.pyStr "x")
      = (Except.ok (statusErrDict "Discord bot not initialized"), []) := by
  have h := gateway_C3 Op.sendMessage
    [("channel_id", PyVal.pyInt 1), ("content", PyVal.pyStr "x")] stubEnv
    1 2 3 4 5 (PyVal.pyStr "x") (PyVal.pyStr "e") (PyVal.pyStr "n") [] none
  exact ⟨(h.2.2.2.1 (by
    intro p hp
    simp only [requiredOf, List.mem_cons, List.not_mem_nil, or_false] at hp
    rcases hp with rfl | rfl <;> rfl)).1, h.2.2.2.2.1⟩

/-- Claim C6: every facade method is total over facade outcomes: for
every environment behaviour it returns a normal value (a success dict or
an error envelope) and never lets an exception escape; and for a generic
facade failure the envelope message is the failure message verbatim, as
shown for send_message and add_reaction. -/
theorem gateway_C6 :
    (∀ (env : DiscordEnv) (c : FacadeCall), ∃ v, (runFacade env c).1 = Except.ok v)
    ∧ (∀ (env : DiscordEnv) (cid : Int) (content : PyVal) (m : String),
        env.hasChannel cid = true →
        env.send cid content = Except.error (DiscordExn.other m) →
        DiscordMCP.send_message env cid content
          = (Except.ok (statusErrDict m),
             [LibCall.getChannel cid, LibCall.send cid content]))
    ∧ (∀ (env : DiscordEnv) (cid mid : Int) (emoji : PyVal) (m : String),
        env.hasChannel cid = true →
        env.fetchMessage cid mid = Except.ok () →
        env.addReaction cid mid emoji = Except.error (DiscordExn.other m) →
        (DiscordMCP.add_reaction env cid mid emoji).1 = Except.ok (errDict m)) := by
  refine ⟨fun env c => runFacade_ok env c, ?_, ?_⟩
  · intro env cid content m hch hsend
    simp [DiscordMCP.send_message, hch, hsend, pyTry, send_message_handle, exnStr]
  · intro env cid mid emoji m hch hfetch hadd
    simp [DiscordMCP.add_reaction, hch, hfetch, hadd, pyTry, add_reaction_handle]

/-- Claim C6 witness: with a generic send failure whose message is
kaboom, send_message returns the error envelope carrying kaboom
verbatim. -/
theorem gateway_C6_witness :
    DiscordMCP.send_message c6Env 1 (PyVal.pyStr "hi")
      = (Except.ok (statusErrDict "kaboom"),
         [LibCall.getChannel 1, LibCall.send 1 (PyVal.pyStr "hi")]) :=
  gateway_C6.2.1 c6Env 1 (PyVal.pyStr "hi") "kaboom" rfl rfl

/-- Claim C7: add_multiple_reactions applies the reactions sequentially
in list order; if the reaction at position k fails, the call trace shows
exactly the first k successful add_reaction calls followed by the
failing one (nothing is rolled back) and the method returns an error
envelope; if all succeed, the trace is the full in-order list and the
result is the success dict. -/
theorem gateway_C7 :
    (∀ (env : DiscordEnv) (cid mid : Int) (emojis : List PyVal) (k : Nat)
        (hk : k < emojis.length) (ex : DiscordExn),
      env.hasChannel cid = true →
      env.fetchMessage cid mid = Except.ok () →
      (∀ e ∈ emojis.take k, env.addReaction cid mid e = Except.ok ()) →
      env.addReaction cid mid (emojis.get ⟨k, hk⟩) = Except.error ex →
      (∃ m, (DiscordMCP.add_multiple_reactions env cid mid emojis).1
          = Except.ok (errDict m))
      ∧ (DiscordMCP.add_multiple_reactions env cid mid emojis).2
          = LibCall.getChannel cid :: LibCall.fetchMessage cid mid ::
            (emojis.take (k + 1)).map (fun e => LibCall.addReaction cid mid e))
    ∧ (∀ (env : DiscordEnv) (cid mid : Int) (emojis : List PyVal),
      env.hasChannel cid = true →
      env.fetchMessage cid mid = Except.ok () →
      (∀ e ∈ emojis, env.addReaction cid mid e = Except.ok ()) →
      DiscordMCP.add_multiple_reactions env cid mid emojis
        = (Except.ok (PyVal.pyDict [("status", PyVal.pyStr "success")]),
           LibCall.getChannel cid :: LibCall.fetchMessage cid mid ::
             emojis.map (fun e => LibCall.addReaction cid mid e))) := by
  constructor
  · intro env cid mid emojis k hk ex hch hfetch hok hbad
    have hloop := addLoop_fails env cid mid emojis k hk ex hok hbad
    have hm : DiscordMCP.add_multiple_reactions env cid mid emojis
        = (Except.ok (add_multiple_reactions_handle ex),
           LibCall.getChannel cid :: LibCall.fetchMessage cid mid ::
             (emojis.take (k + 1)).map (fun e => LibCall.addReaction cid mid e)) := by
      simp [DiscordMCP.add_multiple_reactions, hch, hfetch, hloop, pyTry]
    refine ⟨?_, by rw [hm]⟩
    cases ex with
    | notFound s =>
      exact ⟨"Message not found", by simp [hm, add_multiple_reactions_handle]⟩
    | forbidden s =>
      exact ⟨"Permission denied", by simp [hm, add_multiple_reactions_handle]⟩
    | other s => exact ⟨s, by simp [hm, add_multiple_reactions_handle]⟩
  · intro env cid mid emojis hch hfetch hok
    have hloop := addLoop_all_ok env cid mid emojis hok
    simp [DiscordMCP.add_multiple_reactions, hch, hfetch, hloop, pyTry]

/-- Claim C7 witness: with three reactions of which the second fails
with Forbidden, the trace shows the first success followed by the
failing call (the third reaction is never attempted, the first remains
applied) and the result is an error envelope. -/
theorem gateway_C7_witness :
    (∃ m, (DiscordMCP.add_multiple_reactions c7Env 1 2
        [PyVal.pyStr "a", PyVal.pyStr "bad", PyVal.pyStr "c"]).1
        = Except.ok (errDict m))
    ∧ (DiscordMCP.add_multiple_reactions c7Env 1 2
        [PyVal.pyStr "a", PyVal.pyStr "bad", PyVal.pyStr "c"]).2
        = LibCall.getChannel 1 :: LibCall.fetchMessage 1 2 ::
          ([PyVal.pyStr "a", PyVal.pyStr "bad", PyVal.pyStr "c"].take 2).map
            (fun e => LibCall.addReaction 1 2 e) :=
  gateway_C7.1 c7Env 1 2 [PyVal.pyStr "a", PyVal.pyStr "bad", PyVal.pyStr "c"]
    1 (by decide) (DiscordExn.forbidden "403 Forbidden") rfl rfl
    (by
      intro e he
      simp only [List.take, List.mem_singleton, List.mem_cons,
        List.not_mem_nil, or_false] at he
      subst he
      rfl)
    rfl

lemma httpPipeline_status_of_reject (op : Op) (ready : Bool) (env : DiscordEnv)
    (data : Req) (s : Nat) (b : PyVal)
    (h : httpStep op ready data = HttpStep.reject s b) :
    (httpPipeline op ready env (Except.ok data)).1 = s := by
  cases op <;>
    simp only [httpStep] at h <;>
    simp [httpPipeline, httpStep, h, httpFinish]

lemma validated_ready_reject_500 (op : Op) (data : Req) (s : Nat) (b : PyVal)
    (hall : allReq op data) (h : httpStep op true data = HttpStep.reject s b) :
    s = 500 := by
  cases op with
  | sendMessage =>
    have h1 := hall "channel_id" (by simp [requiredOf])
    have h2 := hall "content" (by simp [requiredOf])
    simp [httpStep, handle_send_message, h1, h2] at h
    (repeat' split at h) <;> (injection h <;> omega)
  | readMessages =>
    have h1 := hall "channel_id" (by simp [requiredOf])
    simp [httpStep, handle_read_messages, h1] at h
    (repeat' split at h) <;> (injection h <;> omega)
  | getUserInfo =>
    have h1 := hall "user_id" (by simp [requiredOf])
    simp [httpStep, handle_get_user_info, h1] at h
    (repeat' split at h) <;> (injection h <;> omega)
  | listServers =>
    simp [httpStep, handle_list_servers] at h
  | createTextChannel =>
    have h1 := hall "server_id" (by simp [requiredOf])
    have h2 := hall "name" (by simp [requiredOf])
    simp [httpStep, handle_create_text_channel, h1, h2] at h
    (repeat' split at h) <;> (injection h <;> omega)
  | deleteChannel =>
    have h1 := hall "channel_id" (by simp [requiredOf])
    simp [httpStep, handle_delete_channel, h1] at h
    (repeat' split at h) <;> (injection h <;> omega)
  | addReaction =>
    have h1 := hall "channel_id" (by simp [requiredOf])
    have h2 := hall "message_id" (by simp [requiredOf])
    have h3 := hall "emoji" (by simp [requiredOf])
    simp [httpStep, handle_add_reaction, h1, h2, h3] at h
    (repeat' split at h) <;> (injection h <;> omega)
  | removeReaction =>
    have h1 := hall "channel_id" (by simp [requiredOf])
    have h2 := hall "message_id" (by simp [requiredOf])
    have h3 := hall "emoji" (by simp [requiredOf])
    simp [httpStep, handle_remove_reaction, h1, h2, h3] at h
    (repeat' split at h) <;> (injection h <;> omega)

/-- Claim C4: for every HTTP operation request, a missing required
parameter or an unparseable body yields status 400; an uninitialized
backend (with parameters present) yields status 500, and any handler
rejection carries status 400 or 500 only; an internal failure, that is
any rejection occurring after validation has passed with the backend
ready (the coercion-failure class, caught by the bare except clause),
yields status exactly 500; every dispatched request yields status 200
with the facade value as the body, whatever the facade outcome; in
particular a channel-not-found outcome of send_message is reported with
status 200 and the not-found error only in the body. -/
theorem gateway_C4 : ∀ (op : Op) (ready : Bool) (env : DiscordEnv)
    (body : Except Unit Req),
    (∀ (data : Req) (p : String), body = Except.ok data → p ∈ requiredOf op →
        truthy (getParam data p) = false → (httpPipeline op ready env body).1 = 400)
    ∧ (body = Except.error () → op ≠ Op.listServers →
        (httpPipeline op ready env body).1 = 400)
    ∧ (∀ data : Req, body = Except.ok data → allReq op data → ready = false →
        (httpPipeline op ready env body).1 = 500)
    ∧ (∀ (data : Req) (s : Nat) (b : PyVal),
        httpStep op ready data = HttpStep.reject s b → s = 400 ∨ s = 500)
    ∧ (∀ (data : Req) (c : FacadeCall), body = Except.ok data →
        httpStep op ready data = HttpStep.invoke c →
        (httpPipeline op ready env body).1 = 200
        ∧ (httpPipeline op ready env body).2.1 = facadeVal env c)
    ∧ (∀ (data : Req) (cid : Int) (content : PyVal), body = Except.ok data →
        httpStep Op.sendMessage ready data
          = HttpStep.invoke (FacadeCall.sendMessage cid content) →
        env.hasChannel cid = false →
        (httpPipeline Op.sendMessage ready env body).1 = 200
        ∧ (httpPipeline Op.sendMessage ready env body).2.1
            = statusErrDict "Channel not found")
    ∧ (∀ (data : Req) (s : Nat) (b : PyVal), body = Except.ok data →
        allReq op data → ready = true →
        httpStep op ready data = HttpStep.reject s b →
        s = 500 ∧ (httpPipeline op ready env body).1 = 500) := by
  intro op ready env body
  refine ⟨?_, ?_, ?_, ?_, ?_, ?_, ?_⟩
  · intro data p hb hp hfal
    subst hb
    cases op with
    | sendMessage =>
      simp only [requiredOf, List.mem_cons, List.not_mem_nil, or_false] at hp
      rcases hp with rfl | rfl <;>
        simp [httpPipeline, httpStep, handle_send_message, hfal, httpFinish]
    | readMessages =>
      simp only [requiredOf, List.mem_cons, List.not_mem_nil, or_false] at hp
      rcases hp with rfl
      simp [httpPipeline, httpStep, handle_read_messages, hfal, httpFinish]
    | getUserInfo =>
      simp only [requiredOf, List.mem_cons, List.not_mem_nil, or_false] at hp
      rcases hp with rfl
      simp [httpPipeline, httpStep, handle_get_user_info, hfal, httpFinish]
    | listServers => simp [requiredOf] at hp
    | createTextChannel =>
      simp only [requiredOf, List.mem_cons, List.not_mem_nil, or_false] at hp
      rcases hp with rfl | rfl <;>
        simp [httpPipeline, httpStep, handle_create_text_channel, hfal, httpFinish]
    | deleteChannel =>
      simp only [requiredOf, List.mem_cons, List.not_mem_nil, or_false] at hp
      rcases hp with rfl
      simp [httpPipeline, httpStep, handle_delete_channel, hfal, httpFinish]
    | addReaction =>
      simp only [requiredOf, List.mem_cons, List.not_mem_nil, or_false] at hp
      rcases hp with rfl | rfl | rfl <;>
        simp [httpPipeline, httpStep, handle_add_reaction, hfal, httpFinish]
    | removeReaction =>
      simp only [requiredOf, List.mem_cons, List.not_mem_nil, or_false] at hp
      rcases hp with rfl | rfl | rfl <;>
        simp [httpPipeline, httpStep, handle_remove_reaction, hfal, httpFinish]
  · intro hb hne
    subst hb
    cases op with
    | listServers => exact absurd rfl hne
    | sendMessage => simp [httpPipeline]
    | readMessages => simp [httpPipeline]
    | getUserInfo => simp [httpPipeline]
    | createTextChannel => simp [httpPipeline]
    | deleteChannel => simp [httpPipeline]
    | addReaction => simp [httpPipeline]
    | removeReaction => simp [httpPipeline]
  · intro data hb hall hready
    subst hb
    subst hready
    cases op with
    | sendMessage =>
      have h1 := hall "channel_id" (by simp [requiredOf])
      have h2 := hall "content" (by simp [requiredOf])
      simp [httpPipeline, httpStep, handle_send_message, h1, h2, httpFinish]
    | readMessages =>
      have h1 := hall "channel_id" (by simp [requiredOf])
      simp [httpPipeline, httpStep, handle_read_messages, h1, httpFinish]
    | getUserInfo =>
      have h1 := hall "user_id" (by simp [requiredOf])
      simp [httpPipeline, httpStep, handle_get_user_info, h1, httpFinish]
    | listServers =>
      simp [httpPipeline, handle_list_servers, httpFinish]
    | createTextChannel =>
      have h1 := hall "server_id" (by simp [requiredOf])
      have h2 := hall "name" (by simp [requiredOf])
      simp [httpPipeline, httpStep, handle_create_text_channel, h1, h2, httpFinish]
    | deleteChannel =>
      have h1 := hall "channel_id" (by simp [requiredOf])
      simp [httpPipeline, httpStep, handle_delete_channel, h1, httpFinish]
    | addReaction =>
      have h1 := hall "channel_id" (by simp [requiredOf])
      have h2 := hall "message_id" (by simp [requiredOf])
      have h3 := hall "emoji" (by simp [requiredOf])
      simp [httpPipeline, httpStep, handle_add_reaction, h1, h2, h3, httpFinish]
    | removeReaction =>
      have h1 := hall "channel_id" (by simp [requiredOf])
      have h2 := hall "message_id" (by simp [requiredOf])
      have h3 := hall "emoji" (by simp [requiredOf])
      simp [httpPipeline, httpStep, handle_remove_reaction, h1, h2, h3, httpFinish]
  · intro data s b h
    cases op <;>
      simp only [httpStep, handle_send_message, handle_read_messages,
        handle_get_user_info, handle_list_servers, handle_create_text_channel,
        handle_delete_channel, handle_add_reaction, handle_remove_reaction] at h <;>
      (repeat' split at h) <;>
      (injection h <;> omega)
  · intro data c hb hstep
    subst hb
    obtain ⟨v, hv⟩ := runFacade_ok env c
    cases op <;>
      simp only [httpStep] at hstep <;>
      (constructor <;> simp [httpPipeline, httpStep, hstep, httpFinish, hv, facadeVal])
  · intro data cid content hb hstep hchan
    subst hb
    simp only [httpStep] at hstep
    have hrun : runFacade env (FacadeCall.sendMessage cid content)
        = (Except.ok (statusErrDict "Channel not found"), [LibCall.getChannel cid]) := by
      simp [runFacade, DiscordMCP.send_message, hchan, pyTry]
    constructor <;> simp [httpPipeline, httpStep, hstep, httpFinish, hrun]
  · intro data s b hb hall hready hstep
    subst hb
    subst hready
    have h500 := validated_ready_reject_500 op data s b hall hstep
    refine ⟨h500, ?_⟩
    rw [httpPipeline_status_of_reject op true env data s b hstep, h500]

/-- Claim C4 witness: a well-formed send_message request to a channel
that does not exist is answered with status 200 and the channel-not-
found error in the body only; a send_message request whose channel_id
is present and truthy but not coercible to an integer (an internal
coercion failure, here a list value) is answered with status 500. -/
theorem gateway_C4_witness :
    (httpPipeline Op.sendMessage true stubEnv
      (Except.ok [("channel_id", PyVal.pyInt 5), ("content", PyVal.pyStr "hi")])).1 = 200
    ∧ (httpPipeline Op.sendMessage true stubEnv
      (Except.ok [("channel_id", PyVal.pyInt 5), ("content", PyVal.pyStr "hi")])).2.1
      = statusErrDict "Channel not found"
    ∧ (httpPipeline Op.sendMessage true stubEnv
      (Except.ok [("channel_id", PyVal.pyList [PyVal.pyInt 1]),
        ("content", PyVal.pyStr "hi")])).1 = 500 := by
  have h1 := (gateway_C4 Op.sendMessage true stubEnv
    (Except.ok [("channel_id", PyVal.pyInt 5), ("content", PyVal.pyStr "hi")])).2.2.2.2.2.1
    [("channel_id", PyVal.pyInt 5), ("content", PyVal.pyStr "hi")]
    5 (PyVal.pyStr "hi") rfl rfl rfl
  have h2 := (gateway_C4 Op.sendMessage true stubEnv
    (Except.ok [("channel_id", PyVal.pyList [PyVal.pyInt 1]),
      ("content", PyVal.pyStr "hi")])).2.2.2.2.2.2
    [("channel_id", PyVal.pyList [PyVal.pyInt 1]), ("content", PyVal.pyStr "hi")]
    500 (errDict "int() argument must be a number or a string, not list") rfl
    (by
      intro p hp
      simp only [requiredOf, List.mem_cons, List.not_mem_nil, or_false] at hp
      rcases hp with rfl | rfl <;> rfl)
    rfl rfl
  exact ⟨h1.1, h1.2, h2.2⟩
